import Mathlib

/-!
Shallow embedding of the PersonaPlex streaming client
(`src/skills-bundled/personaplex/scripts/connect.py`) and the voice-name
bridge (`src/skills-bundled/personaplex/scripts/voice_bridge.py`).

Pure data (JSON values, association lists) is embedded directly; stateful
code (the `running` flag of the client and websocket, the receive-pump loop, the
capture queue) is embedded as explicit state passing; Python exceptions are
embedded as `Except`. The asyncio event loop is single-threaded and
cooperative: code between two `await` points runs atomically, so the
straight-line sections of the source are embedded as pure functions and the
loops as folds/recursions over the sequence of awaited results.
-/

namespace Py

/-- Python `str.upper()` (ASCII case mapping, character by character). -/
def pyUpper (s : String) : String := ⟨s.data.map Char.toUpper⟩

/-- Python `str.lower()` (ASCII case mapping, character by character). -/
def pyLower (s : String) : String := ⟨s.data.map Char.toLower⟩

end Py

namespace VoiceBridge

/-- Embeds `VoiceBridge.ELEVENLABS_TO_PERSONAPLEX` (voice_bridge.py lines 42-64),
in source (insertion) order. -/
def ELEVENLABS_TO_PERSONAPLEX : List (String × String) :=
  [ ("rachel",  "NATF2"),
    ("adam",    "NATM1"),
    ("george",  "NATM0"),
    ("alice",   "NATF1"),
    ("brian",   "NATM2"),
    ("charlie", "NATM3"),
    ("daniel",  "VARM0"),
    ("bella",   "NATF3"),
    ("elli",    "NATF0"),
    ("josh",    "VARM1"),
    ("arnold",  "VARM2"),
    ("sam",     "VARM3"),
    ("domi",    "VARF0"),
    ("grace",   "VARF1"),
    ("glinda",  "VARF3"),
    ("serena",  "VARF2"),
    ("emily",   "VARF4"),
    ("ethan",   "VARM4") ]

/-- The keys of `VoiceBridge.PRESET_INFO` (voice_bridge.py lines 67-90). -/
def PRESET_INFO_KEYS : List String :=
  [ "NATF0", "NATF1", "NATF2", "NATF3",
    "NATM0", "NATM1", "NATM2", "NATM3",
    "VARF0", "VARF1", "VARF2", "VARF3", "VARF4",
    "VARM0", "VARM1", "VARM2", "VARM3", "VARM4" ]

/-- Python `dict.get(k)` on an association list in insertion order. -/
def alistGet (l : List (String × String)) (k : String) : Option String :=
  (l.find? (fun p => p.1 == k)).map (fun p => p.2)

/-- Embeds `VoiceBridge.__init__` (voice_bridge.py lines 92-98): build the reverse
mapping PersonaPlex → ElevenLabs; the first mapping for a preset wins. -/
def pp_to_el : List (String × String) :=
  ELEVENLABS_TO_PERSONAPLEX.foldl
    (fun acc p =>
      if (acc.find? (fun q => q.1 == p.2)).isSome then acc
      else acc ++ [(p.2, p.1)])
    []

/-- Embeds `VoiceBridge.get_personaplex_voice` (voice_bridge.py lines 100-114). -/
def get_personaplex_voice (name : String) : Option String :=
  let upper := Py.pyUpper name
  if PRESET_INFO_KEYS.contains upper then some upper
  else alistGet ELEVENLABS_TO_PERSONAPLEX (Py.pyLower name)

/-- Embeds `VoiceBridge.get_elevenlabs_voice` (voice_bridge.py lines 116-130). -/
def get_elevenlabs_voice (name : String) : Option String :=
  let lower := Py.pyLower name
  if (ELEVENLABS_TO_PERSONAPLEX.map (fun p => p.1)).contains lower then some lower
  else alistGet pp_to_el (Py.pyUpper name)

end VoiceBridge

namespace PersonaPlex

/-- JSON values, the shape of `json.loads` results in the client. -/
inductive Json where
  | null : Json
  | bool (b : Bool) : Json
  | num (n : Int) : Json
  | str (s : String) : Json
  | arr (elems : List Json) : Json
  | obj (fields : List (String × Json)) : Json

/-- Outbound websocket messages: `ws.send(str)` vs `ws.send(bytes)`.
Text messages carry the JSON object serialized by `json.dumps`; binary
messages carry raw PCM bytes (modelled as a list of byte values). -/
inductive OutMsg where
  | text (j : Json) : OutMsg
  | binary (payload : List Nat) : OutMsg

/-- Whether an outbound message is a text (JSON) message. -/
def OutMsg.isText : OutMsg → Bool
  | .text _ => true
  | .binary _ => false

/-- Whether an outbound message is a binary (audio frame) message. -/
def OutMsg.isBinary : OutMsg → Bool
  | .text _ => false
  | .binary _ => true

/-- Embeds `SAMPLE_RATE = 24000` (connect.py line 41). -/
def SAMPLE_RATE : Nat := 24000

/-- Embeds `CHUNK_DURATION_MS = 80` (connect.py line 43). -/
def CHUNK_DURATION_MS : Nat := 80

/-- Embeds `CHUNK_SIZE = int(SAMPLE_RATE * CHUNK_DURATION_MS / 1000)` — samples per
chunk (connect.py line 44). -/
def CHUNK_SIZE : Nat := SAMPLE_RATE * CHUNK_DURATION_MS / 1000

/-- Bytes per captured chunk: `CHUNK_SIZE` int16 samples, 2 bytes each
(`dtype="int16"` in the sounddevice streams). -/
def CHUNK_BYTES : Nat := 2 * CHUNK_SIZE

/-- The mutable state of a `PersonaPlexClient`: the stored configuration,
the `running` flag and whether `self._ws` is set (connect.py lines 50-66). -/
structure Client where
  voice : String
  text_prompt : String
  running : Bool
  wsOpen : Bool

/-- Embeds `PersonaPlexClient.__init__` (connect.py lines 50-66):
`self.voice = voice.upper()`, `self.running = False`, `self._ws = None`. -/
def initClient (voice text_prompt : String) : Client :=
  { voice := Py.pyUpper voice
    text_prompt := text_prompt
    running := false
    wsOpen := false }

/-- The configuration object built in `PersonaPlexClient.connect`
(connect.py lines 100-105): `config = {"voice_prompt": f"{self.voice}.pt"}`,
then `config["text_prompt"] = self.text_prompt` only when the prompt string
is truthy (non-empty). -/
def configFields (c : Client) : List (String × Json) :=
  let base := [("voice_prompt", Json.str (c.voice ++ ".pt"))]
  if c.text_prompt = "" then base
  else base ++ [("text_prompt", Json.str c.text_prompt)]

/-- Embeds `PersonaPlexClient.connect` (connect.py lines 74-107): open the
websocket, set `self.running = True`, and send the configuration message as
the first outbound message of the connection. Returns the updated client state
and the messages sent. -/
def connect (c : Client) : Client × List OutMsg :=
  let c1 := { c with running := true, wsOpen := true }
  (c1, [OutMsg.text (Json.obj (configFields c))])

/-- Client state once `run()` has connected and is streaming. -/
def streamingClient (voice text_prompt : String) : Client :=
  (connect (initClient voice text_prompt)).1

/-- The uplink loop of `PersonaPlexClient.send_audio` (connect.py lines
141-151), mapped over the sequence of chunks the capture queue yields:
`while self.running:` pop a chunk; `if self._ws and self.running:` send it
as one binary message, unchanged. -/
def sendAudioTrace (c : Client) : List (List Nat) → List OutMsg
  | [] => []
  | chunk :: rest =>
    if c.running then
      if c.wsOpen && c.running then OutMsg.binary chunk :: sendAudioTrace c rest
      else sendAudioTrace c rest
    else []

/-- The outbound message trace of `PersonaPlexClient.run` (connect.py lines
215-233): `await self.connect()` completes (sending the configuration)
before the two pumps are started; only `send_audio` sends after that
(`receive_audio` never sends). -/
def runSendTrace (c : Client) (chunks : List (List Nat)) : List OutMsg :=
  let p := connect c
  p.2 ++ sendAudioTrace p.1 chunks

/-- The capture-side queue created in `send_audio` (connect.py line 122):
`audio_queue = asyncio.Queue()` — no `maxsize` argument, i.e. unbounded.
`dropCount` counts dropped-chunk events; the client records none. -/
structure AudioQueue where
  items : List (List Nat)
  dropCount : Nat

/-- Embeds `audio_queue.put_nowait(bytes(indata))` from the capture callback
(connect.py line 127): appends to an unbounded `asyncio.Queue`; it never
blocks, never drops, and records no dropped-chunk event. -/
def put_nowait (q : AudioQueue) (chunk : List Nat) : AudioQueue :=
  { q with items := q.items ++ [chunk] }

/-- Embeds `audio_queue.get()` (connect.py line 143): pop the oldest queued chunk,
or nothing when the queue is empty (the `asyncio.wait_for` times out and
the loop continues). -/
def qget? (q : AudioQueue) : Option (List Nat × AudioQueue) :=
  match q.items with
  | [] => none
  | chunk :: rest => some (chunk, { q with items := rest })

/-- A queue operation: a capture-callback push or an uplink-pump pop. -/
inductive QOp where
  | push (chunk : List Nat) : QOp
  | pop : QOp

/-- One queue operation applied to the queue state. -/
def qStep (q : AudioQueue) : QOp → AudioQueue
  | .push chunk => put_nowait q chunk
  | .pop =>
    match qget? q with
    | none => q
    | some p => p.2

/-- A sequence of pushes and pops applied to the queue state. -/
def qRun (q : AudioQueue) (ops : List QOp) : AudioQueue := ops.foldl qStep q

/-- The empty queue as created at the start of `send_audio`. -/
def emptyQueue : AudioQueue := { items := [], dropCount := 0 }

/-- Events the downlink pump surfaces (connect.py lines 182-207):
played audio, logged agent utterances, server errors, debug-level server
messages, raw-text diagnostics, and the pump-terminating error log. -/
inductive Event where
  | play (payload : List Nat) : Event
  | utterance (v : Json) : Event
  | serverError (v : Json) : Event
  | serverDebug (v : Json) : Event
  | diagnostic (raw : String) : Event
  | pumpError (e : String) : Event

/-- Whether `needle` occurs as a contiguous sublist of `hay` (Python
substring containment, over char lists). -/
def charsContain (needle : List Char) : List Char → Bool
  | [] => needle.isEmpty
  | c :: rest => needle.isPrefixOf (c :: rest) || charsContain needle rest

/-- Python `key in data` for a decoded JSON value: key membership for a
dict, element equality for a list, substring test for a string, and a
`TypeError` for numbers, booleans and `None`. -/
def pyContains : Json → String → Except String Bool
  | .obj fields, k => .ok (fields.any (fun p => p.1 == k))
  | .arr elems, k =>
    .ok (elems.any (fun e =>
      match e with
      | .str s => s == k
      | _ => false))
  | .str s, k => .ok (charsContain k.data s.data)
  | _, _ => .error "TypeError: argument of type is not iterable"

/-- First-match field lookup in a decoded JSON object. -/
def lookupField (fields : List (String × Json)) (k : String) : Option Json :=
  (fields.find? (fun p => p.1 == k)).map (fun p => p.2)

/-- Python `data[k]` for a decoded JSON value and string key: dict lookup
(`KeyError` when absent), `TypeError` for every other shape. -/
def pyGetItem : Json → String → Except String Json
  | .obj fields, k =>
    match lookupField fields k with
    | some v => .ok v
    | none => .error "KeyError"
  | _, _ => .error "TypeError: indices must be integers"

/-- The text-message branch of `receive_audio` (connect.py lines 189-200).
`decoded` is the result of the stdlib `json.loads(message)`: `none` models
`json.JSONDecodeError`, which is caught and surfaces the raw string as a
diagnostic; any other exception (the `TypeError` raised by `"text" in data`
or the item access `data[..]` on non-dict shapes) escapes as `Except.error`. -/
def handleText (raw : String) (decoded : Option Json) : Except String (List Event) :=
  match decoded with
  | none => Except.ok [Event.diagnostic raw]
  | some data =>
    match pyContains data "text" with
    | Except.error e => Except.error e
    | Except.ok true =>
      match pyGetItem data "text" with
      | Except.error e => Except.error e
      | Except.ok v => Except.ok [Event.utterance v]
    | Except.ok false =>
      match pyContains data "error" with
      | Except.error e => Except.error e
      | Except.ok true =>
        match pyGetItem data "error" with
        | Except.error e => Except.error e
        | Except.ok v => Except.ok [Event.serverError v]
      | Except.ok false => Except.ok [Event.serverDebug data]

/-- An inbound websocket message: binary audio, or text together with its
stdlib `json.loads` outcome. -/
inductive InMsg where
  | binary (payload : List Nat) : InMsg
  | text (raw : String) (decoded : Option Json) : InMsg

/-- One awaited result inside the downlink loop: a received message, an
`asyncio.TimeoutError` from `wait_for`, or an exception from `recv`. -/
inductive InEvent where
  | msg (m : InMsg) : InEvent
  | timeout : InEvent
  | recvError (e : String) : InEvent

/-- One iteration of the `receive_audio` loop body (connect.py lines
182-207): returns the surfaced events and whether the loop continues.
A timeout continues; a binary message is written to playback; a text
message goes through `handleText`, and any exception it raises is caught
by the generic handler, which logs a pump error and breaks; a `recv`
failure likewise logs and breaks. -/
def receiveIter : InEvent → List Event × Bool
  | .timeout => ([], true)
  | .recvError e => ([Event.pumpError e], false)
  | .msg (.binary payload) => ([Event.play payload], true)
  | .msg (.text raw decoded) =>
    match handleText raw decoded with
    | Except.ok evs => (evs, true)
    | Except.error e => ([Event.pumpError e], false)

/-- Embeds `PersonaPlexClient.stop` (connect.py lines 235-244): `if not
self.running: return` is a no-op; otherwise clear the flag and close the
websocket. Returns the new state and whether this call performed the
teardown. In asyncio the flag check and clear run with no `await` between
them, so concurrent `stop()` calls (signal handler, the `finally` of `run`, the
timeout handler) serialize through this guard. -/
def stop (c : Client) : Client × Bool :=
  if c.running then ({ c with running := false, wsOpen := false }, true)
  else (c, false)

/-- Iterates `stop()` `n` times in sequence: final state and how many of the
calls performed the teardown. -/
def stopN (c : Client) : Nat → Client × Nat
  | 0 => (c, 0)
  | n + 1 =>
    let p := stop c
    let q := stopN p.1 n
    (q.1, (if p.2 then 1 else 0) + q.2)

/-- How `run()` ends, as observed by `clawdbot_connect`: the pump loops
exit (each pump catches its own send/receive exception, logs it and
breaks, so `asyncio.gather` — and hence `run()` — returns normally), or
`run()` raises (connection establishment failure happens before the `try`
block of `run`, so the exception propagates). -/
inductive RunEnd where
  | pumpsExited : RunEnd
  | raises (e : String) : RunEnd

/-- How the session ends, as observed by `clawdbot_connect` (connect.py
lines 280-292): no duration limit configured and `run()` ends; a duration
limit configured and `run()` ends before it; or the duration limit fires
(`asyncio.wait_for` raises `asyncio.TimeoutError`). -/
inductive SessionOutcome where
  | noLimit (en : RunEnd) : SessionOutcome
  | beforeLimit (en : RunEnd) : SessionOutcome
  | limitReached : SessionOutcome

/-- The result dict of `clawdbot_connect`. -/
structure SessionResult where
  status : String
  error : Option String

/-- Embeds `clawdbot_connect` (connect.py lines 249-294): build the client, run
it, and map the outcome to a status. `run()` returning under a configured
duration limit sets `status = "completed"`; returning with no limit sets
`"disconnected"`; an exception sets `"error"`; `asyncio.TimeoutError` sets
`"timeout"` and calls `client.stop()` again (after the `finally` of `run`
already ran it during cancellation). Returns the result and the final
client state. -/
def clawdbot_connect (voice text_prompt : String) (outcome : SessionOutcome) :
    SessionResult × Client :=
  let c := streamingClient voice text_prompt
  match outcome with
  | .noLimit .pumpsExited =>
    ({ status := "disconnected", error := none }, (stop c).1)
  | .noLimit (.raises e) =>
    ({ status := "error", error := some e }, initClient voice text_prompt)
  | .beforeLimit .pumpsExited =>
    ({ status := "completed", error := none }, (stop c).1)
  | .beforeLimit (.raises e) =>
    ({ status := "error", error := some e }, initClient voice text_prompt)
  | .limitReached =>
    ({ status := "timeout", error := none }, (stop (stop c).1).1)

end PersonaPlex

/-- C10: the voice-name bridge round-trips in both directions: composing the
two lookups is the identity on ElevenLabs keys and on mapped PersonaPlex
presets. -/
theorem c10_voice_bridge_roundtrip (n p : String)
    (hn : n ∈ VoiceBridge.ELEVENLABS_TO_PERSONAPLEX.map (fun q => q.1))
    (hp : p ∈ VoiceBridge.pp_to_el.map (fun q => q.1)) :
    (VoiceBridge.get_personaplex_voice n).bind VoiceBridge.get_elevenlabs_voice
      = some n ∧
    (VoiceBridge.get_elevenlabs_voice p).bind VoiceBridge.get_personaplex_voice
      = some p := by
  constructor
  · fin_cases hn <;> decide
  · fin_cases hp <;> decide

/-- Witness for C10 at the concrete names "rachel" and "NATM1". -/
theorem c10_voice_bridge_roundtrip_witness :
    (VoiceBridge.get_personaplex_voice "rachel").bind
        VoiceBridge.get_elevenlabs_voice = some "rachel" ∧
    (VoiceBridge.get_elevenlabs_voice "NATM1").bind
        VoiceBridge.get_personaplex_voice = some "NATM1" :=
  ⟨(c10_voice_bridge_roundtrip "rachel" "NATM1" (by decide) (by decide)).1,
   (c10_voice_bridge_roundtrip "rachel" "NATM1" (by decide) (by decide)).2⟩

open PersonaPlex

theorem sendAudioTrace_streaming_eq (c : Client) (h1 : c.running = true)
    (h2 : c.wsOpen = true) (chunks : List (List Nat)) :
    sendAudioTrace c chunks = chunks.map OutMsg.binary := by
  induction chunks with
  | nil => rfl
  | cons a l ih => simp [sendAudioTrace, h1, h2, ih]

theorem runSendTrace_cons (c : Client) (chunks : List (List Nat)) :
    runSendTrace c chunks =
      OutMsg.text (Json.obj (configFields c)) :: chunks.map OutMsg.binary := by
  show OutMsg.text (Json.obj (configFields c)) :: sendAudioTrace _ chunks = _
  rw [sendAudioTrace_streaming_eq _ rfl rfl]

theorem filter_isText_map_binary (chunks : List (List Nat)) :
    (chunks.map OutMsg.binary).filter OutMsg.isText = [] := by
  induction chunks with
  | nil => rfl
  | cons a l ih => simp [OutMsg.isText, ih]

/-- C1: for every client configuration and every sequence of captured
chunks, the outbound trace of the session starts with the configuration
message, contains exactly one text (configuration) message, and every
message after the first is a binary audio frame — so the configuration is
sent exactly once, first, before any audio frame. -/
theorem c1_config_sent_once_first (v t : String) (chunks : List (List Nat)) :
    (runSendTrace (initClient v t) chunks).head? =
      some (OutMsg.text (Json.obj (configFields (initClient v t)))) ∧
    ((runSendTrace (initClient v t) chunks).filter OutMsg.isText).length = 1 ∧
    ∀ m ∈ (runSendTrace (initClient v t) chunks).tail, OutMsg.isBinary m = true := by
  rw [runSendTrace_cons]
  refine ⟨rfl, ?_, ?_⟩
  · simp [List.filter, OutMsg.isText, filter_isText_map_binary]
  · intro m hm
    simp only [List.tail_cons, List.mem_map] at hm
    obtain ⟨a, _, rfl⟩ := hm
    rfl

theorem qStep_dropCount (q : AudioQueue) (op : QOp) :
    (qStep q op).dropCount = q.dropCount := by
  cases op with
  | push chunk => rfl
  | pop =>
    show (match qget? q with | none => q | some p => p.2).dropCount = _
    unfold qget?
    cases q.items <;> rfl

theorem qRun_dropCount (ops : List QOp) :
    ∀ q : AudioQueue, (qRun q ops).dropCount = q.dropCount := by
  induction ops with
  | nil => intro q; rfl
  | cons op rest ih =>
    intro q
    show (qRun (qStep q op) rest).dropCount = _
    rw [ih, qStep_dropCount]

/-- C2 counterexample: the capture queue is created as an unbounded
`asyncio.Queue`; pushing 26 chunks (one more than the configured
capacity of ≈25 chunks of 80 ms) onto the empty queue leaves all 26 chunks
queued — the stated capacity bound is exceeded — and no dropped-chunk
event is ever recorded. -/
theorem c2_queue_bound_counterexample :
    25 < (qRun emptyQueue (List.replicate 26 (QOp.push [0]))).items.length ∧
    (qRun emptyQueue (List.replicate 26 (QOp.push [0]))).dropCount = 0 := by
  constructor
  · decide
  · decide

/-- C2 (amended): the capture queue is an unbounded FIFO: a push appends
the chunk without blocking and without dropping anything, the newly pushed
chunk is immediately the last queued element (so the most recently pushed
chunk is always still poppable), and no sequence of pushes and pops ever
records a dropped-chunk event. -/
theorem c2_amended_unbounded_fifo (q : AudioQueue) (c : List Nat) (ops : List QOp) :
    (qStep q (QOp.push c)).items = q.items ++ [c] ∧
    (qStep q (QOp.push c)).items.getLast? = some c ∧
    (qStep q (QOp.push c)).dropCount = q.dropCount ∧
    (qRun emptyQueue ops).dropCount = 0 := by
  refine ⟨rfl, ?_, rfl, qRun_dropCount ops emptyQueue⟩
  show (q.items ++ [c]).getLast? = some c
  simp

/-- C3 counterexample: a mid-session receive error makes the downlink pump
log and break (so `run()` returns normally), and when a duration limit is
configured and the failure ends the run before the limit,
`clawdbot_connect` reports `status = "completed"` — the claim says such a
session never reports `completed`. -/
theorem c3_transport_failure_counterexample :
    (receiveIter (InEvent.recvError "connection closed")).2 = false ∧
    (clawdbot_connect "NATF2" ""
        (SessionOutcome.beforeLimit RunEnd.pumpsExited)).1.status = "completed" :=
  ⟨rfl, rfl⟩

/-- C3 (amended): a mid-session transport failure in either pump exits the
pump loop and `run()` returns normally; the single SessionResult then has
status `disconnected` when no duration limit is configured, and
`completed` when a duration limit is configured and the failure ends the
run before the limit. -/
theorem c3_amended_failure_status (v t e : String) :
    (receiveIter (InEvent.recvError e)).2 = false ∧
    (clawdbot_connect v t (SessionOutcome.noLimit RunEnd.pumpsExited)).1.status
      = "disconnected" ∧
    (clawdbot_connect v t (SessionOutcome.beforeLimit RunEnd.pumpsExited)).1.status
      = "completed" :=
  ⟨rfl, rfl, rfl⟩

/-- C4: evaluation at the failing input. The inbound text payload `42`
decodes to the JSON number 42; `"text" in data` then raises `TypeError`,
which the generic exception handler catches, logging a pump error and
breaking — the downlink pump terminates instead of surfacing the payload
as a diagnostic and continuing. -/
theorem c4_json_number_terminates_pump :
    receiveIter (InEvent.msg (InMsg.text "42" (some (Json.num 42)))) =
      ([Event.pumpError "TypeError: argument of type is not iterable"], false) :=
  rfl

theorem stopN_stopped (n : Nat) :
    ∀ c : Client, c.running = false → stopN c n = (c, 0) := by
  induction n with
  | zero => intro c _; rfl
  | succ m ih =>
    intro c h
    simp [stopN, stop, h, ih c h]

/-- C5: `stop()` is idempotent. The `running` check and clear run with no
`await` between them, so all `stop()` calls — caller, signal handler,
the `finally` of `run`, the timeout handler — serialize through the guard; over
any `n ≥ 1` sequential calls on a running client the teardown (clear the
flag, close the websocket) runs exactly once, the final state is the one
the first call produced, and a further call is a no-op. -/
theorem c5_stop_idempotent (c : Client) (n : Nat) (hn : 1 ≤ n)
    (hr : c.running = true) :
    (stopN c n).2 = 1 ∧
    (stopN c n).1 = (stop c).1 ∧
    stop (stop c).1 = ((stop c).1, false) := by
  cases n with
  | zero => omega
  | succ m =>
    have hstop : stop c = ({ c with running := false, wsOpen := false }, true) := by
      simp [stop, hr]
    have hdone : stopN { c with running := false, wsOpen := false } m =
        ({ c with running := false, wsOpen := false }, 0) :=
      stopN_stopped m _ rfl
    refine ⟨?_, ?_, ?_⟩
    · simp [stopN, hstop, hdone]
    · simp [stopN, hstop, hdone]
    · simp [hstop, stop, hr]

/-- Witness for C5: three `stop()` calls on a streaming client perform the
teardown exactly once and leave the stopped state fixed. -/
theorem c5_stop_idempotent_witness :
    (stopN (streamingClient "NATF2" "") 3).2 = 1 ∧
    (stopN (streamingClient "NATF2" "") 3).1 = (stop (streamingClient "NATF2" "")).1 ∧
    stop (stop (streamingClient "NATF2" "")).1 =
      ((stop (streamingClient "NATF2" "")).1, false) :=
  c5_stop_idempotent (streamingClient "NATF2" "") 3 (by decide) rfl

/-- C6: when the duration limit fires (`asyncio.wait_for` raises
`asyncio.TimeoutError`), the SessionResult status is `timeout`, and the
full `stop()` sequence still ran: the running flag is cleared and the
websocket is closed. -/
theorem c6_timeout_status_and_stop (v t : String) :
    (clawdbot_connect v t SessionOutcome.limitReached).1.status = "timeout" ∧
    (clawdbot_connect v t SessionOutcome.limitReached).2.running = false ∧
    (clawdbot_connect v t SessionOutcome.limitReached).2.wsOpen = false :=
  ⟨rfl, rfl, rfl⟩

theorem any_key_eq_isSome_lookup (fields : List (String × Json)) (k : String) :
    fields.any (fun p => p.1 == k) = (lookupField fields k).isSome := by
  induction fields with
  | nil => rfl
  | cons f rest ih =>
    cases h : (f.1 == k) with
    | true => simp [List.any, lookupField, List.find?, h]
    | false =>
      simp only [List.any, lookupField, List.find?, h, Bool.false_or]
      exact ih

/-- C7 counterexample: an inbound text message decoding to an object that
contains both a `text` and an `error` field surfaces only the utterance
event (the `elif` never runs), so no server-error event is surfaced for
that message, contradicting the claim that every object with an `error`
field yields exactly one server-error event. -/
theorem c7_both_fields_counterexample :
    handleText "\x7b\"text\": \"a\", \"error\": \"b\"\x7d"
        (some (Json.obj [("text", Json.str "a"), ("error", Json.str "b")])) =
      Except.ok [Event.utterance (Json.str "a")] :=
  rfl

/-- C7 (amended): an inbound text message decoding to an object with a
`text` field surfaces exactly one agent-utterance event carrying that
value; one decoding to an object with an `error` field and no `text` field
surfaces exactly one server-error event; in both cases the downlink pump
continues (and the shared running flag, which the pump never writes, is
unchanged). -/
theorem c7_amended_control_events (raw : String) (fields : List (String × Json)) :
    (∀ tv, lookupField fields "text" = some tv →
      receiveIter (InEvent.msg (InMsg.text raw (some (Json.obj fields)))) =
        ([Event.utterance tv], true)) ∧
    (∀ ev, lookupField fields "text" = none →
      lookupField fields "error" = some ev →
      receiveIter (InEvent.msg (InMsg.text raw (some (Json.obj fields)))) =
        ([Event.serverError ev], true)) := by
  constructor
  · intro tv htv
    have hany : fields.any (fun p => p.1 == "text") = true := by
      rw [any_key_eq_isSome_lookup, htv]; rfl
    simp [receiveIter, handleText, pyContains, pyGetItem, hany, htv]
  · intro ev hnone herr
    have hany : fields.any (fun p => p.1 == "text") = false := by
      rw [any_key_eq_isSome_lookup, hnone]; rfl
    have hany2 : fields.any (fun p => p.1 == "error") = true := by
      rw [any_key_eq_isSome_lookup, herr]; rfl
    simp [receiveIter, handleText, pyContains, pyGetItem, hany, hany2, herr]

/-- Witness for the amended C7 at the scenario inputs of the spec. -/
theorem c7_amended_control_events_witness :
    receiveIter (InEvent.msg (InMsg.text "\x7b\"text\": \"hello\"\x7d"
        (some (Json.obj [("text", Json.str "hello")])))) =
      ([Event.utterance (Json.str "hello")], true) ∧
    receiveIter (InEvent.msg (InMsg.text "\x7b\"error\": \"oops\"\x7d"
        (some (Json.obj [("error", Json.str "oops")])))) =
      ([Event.serverError (Json.str "oops")], true) :=
  ⟨(c7_amended_control_events "\x7b\"text\": \"hello\"\x7d"
      [("text", Json.str "hello")]).1 (Json.str "hello") rfl,
   (c7_amended_control_events "\x7b\"error\": \"oops\"\x7d"
      [("error", Json.str "oops")]).2 (Json.str "oops") rfl rfl⟩

/-- C8: for every configured voice `v` and text prompt `t`, the first
outbound message is the configuration JSON; its `voice_prompt` field is
`uppercase(v) ++ ".pt"`, and it has a `text_prompt` field equal to `t`
exactly when `t` is non-empty. -/
theorem c8_config_message_shape (v t : String) (chunks : List (List Nat)) :
    (runSendTrace (initClient v t) chunks).head? =
      some (OutMsg.text (Json.obj (configFields (initClient v t)))) ∧
    lookupField (configFields (initClient v t)) "voice_prompt" =
      some (Json.str (Py.pyUpper v ++ ".pt")) ∧
    (lookupField (configFields (initClient v t)) "text_prompt" =
        some (Json.str t) ↔ t ≠ "") := by
  refine ⟨?_, ?_, ?_⟩
  · rw [runSendTrace_cons]
    rfl
  · by_cases ht : t = "" <;>
      simp [configFields, initClient, lookupField, List.find?, ht]
  · by_cases ht : t = "" <;>
      simp [configFields, initClient, lookupField, List.find?, ht]

/-- C9: framing is a pass-through identity: the uplink pump sends every
popped chunk as exactly one binary message whose payload is the bytes of
the chunk, unchanged (no splitting, merging or transformation); in particular a
captured chunk of exactly 3840 bytes (= `CHUNK_BYTES`) goes out as one
3840-byte binary message. -/
theorem c9_chunk_passthrough (v t : String) (chunks : List (List Nat))
    (c : List Nat) (h : c.length = 3840) :
    sendAudioTrace (streamingClient v t) chunks = chunks.map OutMsg.binary ∧
    sendAudioTrace (streamingClient v t) [c] = [OutMsg.binary c] ∧
    CHUNK_BYTES = 3840 ∧ c.length = CHUNK_BYTES := by
  refine ⟨sendAudioTrace_streaming_eq _ rfl rfl chunks,
    sendAudioTrace_streaming_eq _ rfl rfl [c], rfl, ?_⟩
  rw [h]
  rfl

/-- Witness for C9 at a concrete 3840-byte chunk. -/
theorem c9_chunk_passthrough_witness :
    sendAudioTrace (streamingClient "NATF2" "") [[1, 2, 3]] =
      [OutMsg.binary [1, 2, 3]] ∧
    sendAudioTrace (streamingClient "NATF2" "") [List.replicate 3840 0] =
      [OutMsg.binary (List.replicate 3840 0)] ∧
    CHUNK_BYTES = 3840 ∧ (List.replicate 3840 0).length = CHUNK_BYTES := by
  have h := c9_chunk_passthrough "NATF2" "" [[1, 2, 3]] (List.replicate 3840 0)
    (List.length_replicate 3840 0)
  exact ⟨h.1, h.2.1, h.2.2.1, h.2.2.2⟩
